import Mathlib

/-!
# Verification of the rslife mortality-table and present-value engine

Shallow embedding of the core of the `rslife` crate: mortality-table
canonicalization (`src/mt_config.rs`), selected-table projection
(`src/helpers.rs`), survival probabilities (`src/single_life/survivals.rs`),
commutation functions (`src/single_life/commutations.rs`) and the generic
present-value procedures (`src/single_life/benefits.rs`,
`src/single_life/annuities.rs`).

`f64` arithmetic is idealized as real arithmetic; `u32` values are `ℕ`.
Fallible Rust functions returning `RSLifeResult` are embedded as
`Except Err`; a Rust panic (`.unwrap()` on a missing value, or an
underflowing unsigned subtraction under checked arithmetic) is the
distinguished error `Err.panicked`, while typed `RSLifeResult` failures
are `Err.msg`.
-/

open scoped Classical

noncomputable section

namespace RsLife

/-- Outcome of a fallible rslife computation: a typed error (`msg`, the
`Box<dyn Error>` channel) or a panic (`panicked`). -/
inductive Err where
  | msg (s : String)
  | panicked
deriving DecidableEq

/-! ## 1-D canonicalization (`src/mt_config.rs`, `get_qx_from_lx_1D` /
`get_lx_from_qx_1D`) -/

/-- Rust `get_qx_from_lx_1D` (mt_config.rs:350): from an `lx` column, derive the
`qx` column by `qx(i) = (lx(i) - lx(i+1)) / lx(i)` for all but the last
row, and `qx = 1` at the last row. -/
def get_qx_from_lx_1D : List ℝ → List ℝ
  | [] => []
  | [_] => [1]
  | a :: b :: rest => (a - b) / a :: get_qx_from_lx_1D (b :: rest)

/-- The loop of `get_lx_from_qx_1D` (mt_config.rs:408): each step multiplies
the previous `lx` by `1 - qx` of the previous row. -/
def lx_walk : ℝ → List ℝ → List ℝ
  | _, [] => []
  | prev, q :: qs => prev * (1 - q) :: lx_walk (prev * (1 - q)) qs

/-- Rust `get_lx_from_qx_1D` (mt_config.rs:384): from a `qx` column, derive the
`lx` column seeded with `lx(min_age) = radix` and propagated by
`lx(i) = lx(i-1) * (1 - qx(i-1))`; the last `qx` is never read. -/
def get_lx_from_qx_1D (radix : ℝ) (qxs : List ℝ) : List ℝ :=
  radix :: lx_walk radix qxs.dropLast

/-- The `(is_2d, has_lx, has_qx) = (false, false, true)` arm of
`MortTableConfig::get_qx_lx_data_config` (mt_config.rs:288): a 1-D table
supplied with `qx` only keeps its `qx` column unchanged and derives `lx`
via `get_lx_from_qx_1D(df, radix)`.  The configuration's `pct` field is in
scope (it is carried by `MortTableConfig` and validated positive) but the
dispatcher passes only `radix`; `pct` is never applied. -/
def canonicalize_1D_qx (radix : ℕ) (pct : ℝ) (qxs : List ℝ) : List ℝ × List ℝ :=
  (qxs, get_lx_from_qx_1D (radix : ℝ) qxs)

/-! ## Data model (`src/mt_config/mt_data.rs`, `src/mt_config.rs`) -/

/-- Rust `AssumptionEnum` (mt_config.rs:67). -/
inductive Assumption where
  | UDD
  | CFM
  | HPB

/-- A row of a 1-D mortality dataframe: `age` plus possibly-null `qx` and
`lx` cells (polars nullable `f64` columns). -/
structure Row1 where
  age : ℕ
  qx : Option ℝ
  lx : Option ℝ

/-- A row of a 2-D (select & ultimate) dataframe, with a `duration` column. -/
structure Row2 where
  age : ℕ
  dur : ℕ
  qx : Option ℝ
  lx : Option ℝ

/-- The dataframe held by a `MortTableConfig`: 1-D (no `duration` column)
or 2-D. -/
inductive MortDF where
  | oneD (rows : List Row1)
  | twoD (rows : List Row2)

/-- Rust `MortTableConfig` (mt_config.rs:91). -/
structure MTConfig where
  df : MortDF
  radix : ℕ
  pct : ℝ
  assumption : Assumption

/-- The `age` column of either dataframe shape. -/
def MortDF.ages : MortDF → List ℕ
  | .oneD rows => rows.map Row1.age
  | .twoD rows => rows.map Row2.age

/-- Iterator `min` over a list (as in `min_age`). -/
def listMin : List ℕ → Option ℕ
  | [] => none
  | a :: as => some (as.foldl min a)

/-- Iterator `max` over a list (as in `max_age`). -/
def listMax : List ℕ → Option ℕ
  | [] => none
  | a :: as => some (as.foldl max a)

/-- Rust `MortTableConfig::min_age` (mt_config.rs:145). -/
def minAgeC (mt : MTConfig) : Except Err ℕ :=
  match listMin mt.df.ages with
  | some a => .ok a
  | none => .error (.msg ("No age data available"))

/-- Rust `MortTableConfig::max_age` (mt_config.rs:156). -/
def maxAgeC (mt : MTConfig) : Except Err ℕ :=
  match listMax mt.df.ages with
  | some a => .ok a
  | none => .error (.msg ("No age data available"))

/-- Rust `MortTableConfig::max_duration` (mt_config.rs:195): an error when the
`duration` column is absent or empty. -/
def maxDurC (mt : MTConfig) : Except Err ℕ :=
  match mt.df with
  | .oneD _ => .error (.msg ("duration column not found"))
  | .twoD rows =>
    match listMax (rows.map Row2.dur) with
    | some d => .ok d
    | none => .error (.msg ("No duration data available"))

/-- Column selector for `get_value`. -/
inductive Col where
  | qx
  | lx

/-- Read the requested column of a 1-D row. -/
def Row1.field : Row1 → Col → Option ℝ
  | r, .qx => r.qx
  | r, .lx => r.lx

/-- Read the requested column of a 2-D row. -/
def Row2.field : Row2 → Col → Option ℝ
  | r, .qx => r.qx
  | r, .lx => r.lx

/-! ## Selected-table projection (`src/helpers.rs`) -/

/-- First row of a 2-D dataframe matching `age = a` and `duration = d`
(the `filter(..).filter(..).get(0)` closure in helpers.rs:80). -/
def cellLookup (rows : List Row2) (a d : ℕ) : Option Row2 :=
  rows.find? fun r => r.age == a && r.dur == d

/-- One age of the selected-table loop (helpers.rs:72): ages below the
entry age keep the placeholder `qx = lx = 0`; ages at or above it read the
cell at `duration = min(age - entry_age, max_duration)`, and a missing or
null cell is a panic (`.unwrap()`). -/
def selRow (rows : List Row2) (maxD e a : ℕ) : Except Err Row1 :=
  if a < e then pure ⟨a, some 0, some 0⟩
  else
    match (cellLookup rows a (min (a - e) maxD)).bind Row2.qx,
          (cellLookup rows a (min (a - e) maxD)).bind Row2.lx with
    | some q, some l => pure ⟨a, some q, some l⟩
    | _, _ => throw .panicked

/-- The selected-table loop over a list of ages. -/
def selRowsLoop (rows : List Row2) (maxD e : ℕ) : List ℕ → Except Err (List Row1)
  | [] => pure []
  | a :: as => do
    let r ← selRow rows maxD e a
    let rest ← selRowsLoop rows maxD e as
    pure (r :: rest)

/-- Rust `get_selected_mortality_table` (helpers.rs:52): build the 1-D selected
view for `entry_age` over every age in `[min_age, max_age]`. -/
def get_selected_mortality_table (mt : MTConfig) (entry_age : ℕ) :
    Except Err (List Row1) := do
  let minA ← minAgeC mt
  let maxA ← maxAgeC mt
  let maxD ← maxDurC mt
  match mt.df with
  | .oneD _ => throw (.msg ("duration column not found"))
  | .twoD rows => selRowsLoop rows maxD entry_age (List.range' minA (maxA + 1 - minA))

/-- Rust `get_ultimate_mortality_table` (helpers.rs:38): the rows at the maximum
duration, as a 1-D `(age, qx, lx)` table. -/
def get_ultimate_mortality_table (mt : MTConfig) : Except Err (List Row1) := do
  let maxD ← maxDurC mt
  match mt.df with
  | .oneD _ => throw (.msg ("duration column not found"))
  | .twoD rows =>
    pure ((rows.filter fun r => r.dur == maxD).map fun r => ⟨r.age, r.qx, r.lx⟩)

/-- Rust `get_new_config_with_selected_table` (helpers.rs:9): a table without a
`duration` column is used as-is; otherwise the selected (entry age given)
or ultimate (no entry age) 1-D view replaces the dataframe. -/
def get_new_config_with_selected_table (mt : MTConfig) (entry_age : Option ℕ) :
    Except Err MTConfig :=
  match mt.df with
  | .oneD _ => .ok mt
  | .twoD _ =>
    match entry_age with
    | some e => do
        let t ← get_selected_mortality_table mt e
        pure { mt with df := .oneD t }
    | none => do
        let t ← get_ultimate_mortality_table mt
        pure { mt with df := .oneD t }

/-! ## Parameter validation (`src/params.rs`) -/

/-- Rust `GetValueFunctionValidation::validate_all` (params.rs:221): the `garde`
field checks (including the dived `MortTableConfig` checks on `radix` and
`pct`), then the custom cross-field checks; any violation is a typed
error. -/
def getValueValidate (mt : MTConfig) (x : ℕ) (entry_age : Option ℕ) :
    Except Err Unit :=
  if ¬(1 ≤ mt.radix ∧ 0 < mt.pct ∧ x ≤ 150 ∧ ∀ e ∈ entry_age, e ≤ 150) then
    .error (.msg ("garde field validation failed"))
  else
    match listMin mt.df.ages, listMax mt.df.ages with
    | some mn, some mx =>
        if (mn ≤ x ∧ x ≤ mx) ∧ ∀ e ∈ entry_age, e ≤ x ∧ mn ≤ e then .ok ()
        else .error (.msg ("cross-field validation failed"))
    | _, _ => .error (.msg ("Failed to get age bounds from mortality table"))

/-- Rust `SingleLifeParams::validate_all` (params.rs:140). -/
def singleLifeValidate (mt : MTConfig) (_i : ℝ) (x n t m moment : ℕ)
    (entry_age : Option ℕ) : Except Err Unit :=
  if ¬(1 ≤ mt.radix ∧ 0 < mt.pct ∧ x ≤ 150 ∧ n ≤ 150 ∧ t ≤ 150 ∧ 1 ≤ m
        ∧ 1 ≤ moment ∧ ∀ e ∈ entry_age, e ≤ 150) then
    .error (.msg ("garde field validation failed"))
  else
    match listMin mt.df.ages, listMax mt.df.ages with
    | some mn, some mx =>
        if (mn ≤ x ∧ x ≤ mx) ∧ x + t + n ≤ mx ∧ ∀ e ∈ entry_age, e ≤ x ∧ mn ≤ e
        then .ok ()
        else .error (.msg ("cross-field validation failed"))
    | _, _ => .error (.msg ("Failed to get age bounds from mortality table"))

/-- Rust `SurvivalFunctionParams::validate_all` (params.rs:36); ages and times
are `f64`, compared as reals. -/
def survivalValidate (mt : MTConfig) (x t k : ℝ) (entry_age : Option ℕ) :
    Except Err Unit :=
  if ¬(1 ≤ mt.radix ∧ 0 < mt.pct ∧ x ≤ 150 ∧ t ≤ 150 ∧ k ≤ 150
        ∧ ∀ e ∈ entry_age, e ≤ 150) then
    .error (.msg ("garde field validation failed"))
  else
    match listMin mt.df.ages, listMax mt.df.ages with
    | some mn, some mx =>
        if ((mn : ℝ) ≤ x ∧ x ≤ (mx : ℝ)) ∧ x + t + k ≤ (mx : ℝ)
            ∧ ∀ e ∈ entry_age, (e : ℝ) ≤ x ∧ (mn : ℝ) ≤ (e : ℝ)
        then .ok ()
        else .error (.msg ("cross-field validation failed"))
    | _, _ => .error (.msg ("Failed to get age bounds from mortality table"))

/-! ## Table queries (`src/mt_config.rs`, `get_value` and builders) -/

/-- Rust `get_value` (mt_config.rs:311): optional validation, selected-table
projection, then the requested column of the first row with `age = x`; a
missing row or null cell is the typed "No value found" error. -/
def get_value (mt : MTConfig) (c : Col) (x : ℕ) (entry_age : Option ℕ)
    (validate : Bool) : Except Err ℝ := do
  if validate then getValueValidate mt x entry_age
  let mt ← get_new_config_with_selected_table mt entry_age
  let v := match mt.df with
    | .oneD rows => (rows.find? fun r => r.age == x).bind fun r => r.field c
    | .twoD rows => (rows.find? fun r => r.age == x).bind fun r => r.field c
  match v with
  | some val => pure val
  | none => .error (.msg ("No value found"))

/-- Rust `MortTableConfig::dx` (mt_config.rs:239): `dx = lx - lx(x+1)`, or `lx`
itself at the table's maximum age. -/
def dxF (mt : MTConfig) (x : ℕ) (entry_age : Option ℕ) (validate : Bool) :
    Except Err ℝ := do
  let lx ← get_value mt .lx x entry_age validate
  let maxA ← maxAgeC mt
  if x = maxA then pure lx
  else do
    let lx ← get_value mt .lx x entry_age validate
    let lxNext ← get_value mt .lx (x + 1) entry_age validate
    pure (lx - lxNext)

/-! ## Survival engine (`src/single_life/survivals.rs`) -/

/-- Rust `tpx_whole` (survivals.rs:221): `ₜpₓ = lx(x+t) / lx(x)`; the inner
`lx` builder calls validate by default. -/
def tpx_whole (mt : MTConfig) (x t : ℕ) : Except Err ℝ := do
  let lxt ← get_value mt .lx (x + t) none true
  let lx ← get_value mt .lx x none true
  pure (lxt / lx)

/-- Rust `tpx_frac_t` (survivals.rs:230): single-year fractional survival under
the configured assumption, with offset `s = fract x` and base rate
`qx(⌊x⌋)`. -/
def tpx_frac_t (mt : MTConfig) (x t : ℝ) : Except Err ℝ := do
  let q ← get_value mt .qx (⌊x⌋).toNat none true
  pure (match mt.assumption with
    | .UDD => 1 - t * q / (1 - Int.fract x * q)
    | .CFM => (1 - q) ^ t
    | .HPB => 1 - t * q / (1 + Int.fract x * q))

/-- Rust `tpx` (survivals.rs:79): optional validation, projection, `t := t + k`,
then the integer `lx`-ratio case, the direct single-year fractional case,
or the three-segment stitched case. -/
def tpx (mt : MTConfig) (x t k : ℝ) (entry_age : Option ℕ) (validate : Bool) :
    Except Err ℝ := do
  if validate then survivalValidate mt x t k entry_age
  let mt ← get_new_config_with_selected_table mt entry_age
  let t := t + k
  if Int.fract x = 0 ∧ Int.fract t = 0 then
    tpx_whole mt (⌊x⌋).toNat (⌊t⌋).toNat
  else
    let xWhole : ℕ := (⌊x⌋).toNat
    let timeToNextAge := 1 - Int.fract x
    if t ≤ timeToNextAge then
      tpx_frac_t mt x t
    else do
      let survivalToNextAge ← tpx_frac_t mt x timeToNextAge
      let remainingTime := t - timeToNextAge
      let remainingTimeWhole : ℕ := (⌊remainingTime⌋).toNat
      let part1 ← tpx_whole mt (xWhole + 1) remainingTimeWhole
      let survivalForRemainingTime ←
        if Int.fract remainingTime = 0 then
          pure part1
        else do
          let part2 ← tpx_frac_t mt ((xWhole : ℝ) + 1 + (remainingTimeWhole : ℝ))
            (Int.fract remainingTime)
          pure (part1 * part2)
      pure (survivalToNextAge * survivalForRemainingTime)

/-- Rust `tqx` (survivals.rs:191): `ₖ|ₜqₓ = ₖpₓ − ₖ₊ₜpₓ`. -/
def tqx (mt : MTConfig) (x t k : ℝ) (entry_age : Option ℕ) (validate : Bool) :
    Except Err ℝ := do
  let kpx ← tpx mt x k 0 entry_age validate
  let ktpx ← tpx mt x t k entry_age validate
  pure (kpx - ktpx)

/-! ## Commutation engine (`src/single_life/commutations.rs`) -/

/-- Rust `unwrap_or(0.0)` applied to a fallible per-term computation. -/
def orZero (e : Except Err ℝ) : ℝ := e.toOption.getD 0

/-- Rust `Dx` (commutations.rs:98): `Dx = v^x · lx`. -/
def Dx (mt : MTConfig) (i : ℝ) (x : ℕ) (entry_age : Option ℕ)
    (validate : Bool) : Except Err ℝ := do
  if validate then singleLifeValidate mt i x 0 0 1 1 entry_age
  let l ← get_value mt .lx x entry_age false
  pure ((1 / (1 + i)) ^ x * l)

/-- Rust `Cx` (commutations.rs:34): `Cx = v^(x+1) · dx`. -/
def Cx (mt : MTConfig) (i : ℝ) (x : ℕ) (entry_age : Option ℕ)
    (validate : Bool) : Except Err ℝ := do
  if validate then singleLifeValidate mt i x 0 0 1 1 entry_age
  let d ← dxF mt x entry_age false
  pure ((1 / (1 + i)) ^ (x + 1) * d)

/-- Rust `Nx` (commutations.rs:225): validation, one projection, then a fold of
`Dx(k).unwrap_or(0.0)` for `k` from `x` to the table's maximum age. -/
def Nx (mt : MTConfig) (i : ℝ) (x : ℕ) (entry_age : Option ℕ)
    (validate : Bool) : Except Err ℝ := do
  if validate then singleLifeValidate mt i x 0 0 1 1 entry_age
  let mt ← get_new_config_with_selected_table mt entry_age
  let maxA ← maxAgeC mt
  pure ((List.range' x (maxA + 1 - x)).foldl
    (fun acc k => acc + orZero (Dx mt i k none false)) 0)

/-- Rust `Mx` (commutations.rs:162): a fold of `Cx(k).unwrap_or(0.0)`. -/
def Mx (mt : MTConfig) (i : ℝ) (x : ℕ) (entry_age : Option ℕ)
    (validate : Bool) : Except Err ℝ := do
  if validate then singleLifeValidate mt i x 0 0 1 1 entry_age
  let mt ← get_new_config_with_selected_table mt entry_age
  let maxA ← maxAgeC mt
  pure ((List.range' x (maxA + 1 - x)).foldl
    (fun acc k => acc + orZero (Cx mt i k none false)) 0)

/-- Rust `Sx` (commutations.rs:351): a fold of `Nx(k).unwrap_or(0.0)`. -/
def Sx (mt : MTConfig) (i : ℝ) (x : ℕ) (entry_age : Option ℕ)
    (validate : Bool) : Except Err ℝ := do
  if validate then singleLifeValidate mt i x 0 0 1 1 entry_age
  let mt ← get_new_config_with_selected_table mt entry_age
  let maxA ← maxAgeC mt
  pure ((List.range' x (maxA + 1 - x)).foldl
    (fun acc k => acc + orZero (Nx mt i k none false)) 0)

/-- Rust `Rx` (commutations.rs:288): a fold of `Mx(k).unwrap_or(0.0)`. -/
def Rx (mt : MTConfig) (i : ℝ) (x : ℕ) (entry_age : Option ℕ)
    (validate : Bool) : Except Err ℝ := do
  if validate then singleLifeValidate mt i x 0 0 1 1 entry_age
  let mt ← get_new_config_with_selected_table mt entry_age
  let maxA ← maxAgeC mt
  pure ((List.range' x (maxA + 1 - x)).foldl
    (fun acc k => acc + orZero (Mx mt i k none false)) 0)

/-! ## Present-value procedures (`src/single_life/benefits.rs`,
`src/single_life/annuities.rs`) -/

/-- Rust `CashFlowStructure` (benefits.rs:999, annuities.rs:649). -/
inductive CashFlowStructure where
  | Flat
  | Increasing
  | Decreasing

/-- Rust `CashFlowTiming` (annuities.rs:655). -/
inductive CashFlowTiming where
  | InAdvance
  | InArrears

/-- The benefit-amount vector of `benefit_procedure` (benefits.rs:1072):
`1` for Flat, `⌊k/m⌋ + 1` for Increasing, `n − ⌊k/m⌋` for Decreasing; no
division by `m`. -/
def benefit_amounts (st : CashFlowStructure) (n m : ℕ) : List ℝ :=
  match st with
  | .Flat => List.replicate (n * m) 1
  | .Increasing =>
      (List.range (n * m)).map fun k : ℕ => (⌊(k : ℝ) / (m : ℝ)⌋ : ℝ) + 1
  | .Decreasing =>
      (List.range (n * m)).map fun k : ℕ => (n : ℝ) - (⌊(k : ℝ) / (m : ℝ)⌋ : ℝ)

/-- The annuity-amount vector of `annuity_procedure` (annuities.rs:728):
the same three shapes built over the advance index array `0..n·m`, then
every entry divided by `m`. -/
def annuity_amounts (st : CashFlowStructure) (n m : ℕ) : List ℝ :=
  (match st with
    | .Flat => List.replicate (n * m) 1
    | .Increasing =>
        (List.range (n * m)).map fun k : ℕ => (⌊(k : ℝ) / (m : ℝ)⌋ : ℝ) + 1
    | .Decreasing =>
        (List.range (n * m)).map fun k : ℕ => (n : ℝ) - (⌊(k : ℝ) / (m : ℝ)⌋ : ℝ)
  ).map fun a => a / (m : ℝ)

/-- Elementwise triple product and sum (the `zip ... map ... sum` of the
procedures). -/
def tripleSum (dfs probs amounts : List ℝ) : ℝ :=
  ((dfs.zip probs).zip amounts).foldl (fun acc p => acc + p.1.1 * p.1.2 * p.2) 0

/-- Rust `benefit_procedure` (benefits.rs:1005): validation, one projection,
the summed product of discount factors, `unwrap_or(0.0)`-defaulted
deferred death probabilities and amounts, scaled by the deferred factor
`v^t · ₜpₓ`. -/
def benefit_procedure (mt : MTConfig) (i : ℝ) (x n t m moment : ℕ)
    (entry_age : Option ℕ) (validate : Bool) (st : CashFlowStructure) :
    Except Err ℝ := do
  if validate then singleLifeValidate mt i x n t m moment entry_age
  let mt ← get_new_config_with_selected_table mt entry_age
  let kArr : List ℕ := List.range (n * m)
  let v := 1 / (1 + i)
  let discountFactors := kArr.map fun k =>
    v ^ ((moment : ℝ) * (((k : ℝ) + 1) / (m : ℝ)))
  let probabilities := kArr.map fun k =>
    orZero (tqx mt ((x : ℝ) + (t : ℝ)) (1 / (m : ℝ)) ((k : ℝ) / (m : ℝ)) none false)
  let deferredTpx ← tpx mt (x : ℝ) (t : ℝ) 0 none false
  pure (tripleSum discountFactors probabilities (benefit_amounts st n m)
    * (v ^ (t : ℝ) * deferredTpx))

/-- Rust `annuity_procedure` (annuities.rs:661): like `benefit_procedure` but
with timing-shifted indices, survival probabilities `ₖ/ₘpₓ₊ₜ` and the
`1/m`-scaled amounts. -/
def annuity_procedure (mt : MTConfig) (i : ℝ) (x n t m moment : ℕ)
    (entry_age : Option ℕ) (validate : Bool) (st : CashFlowStructure)
    (timing : CashFlowTiming) : Except Err ℝ := do
  if validate then singleLifeValidate mt i x n t m moment entry_age
  let mt ← get_new_config_with_selected_table mt entry_age
  let kArr : List ℕ := match timing with
    | .InAdvance => List.range (n * m)
    | .InArrears => List.range' 1 (n * m)
  let v := 1 / (1 + i)
  let discountFactors := kArr.map fun k => v ^ ((moment : ℝ) * (k : ℝ) / (m : ℝ))
  let probabilities := kArr.map fun k =>
    orZero (tpx mt ((x : ℝ) + (t : ℝ)) ((k : ℝ) / (m : ℝ)) 0 none false)
  let deferredTpx ← tpx mt (x : ℝ) (t : ℝ) 0 none false
  pure (tripleSum discountFactors probabilities (annuity_amounts st n m)
    * (v ^ (t : ℝ) * deferredTpx))

/-- Rust `Exn` (benefits.rs:95): `ₜ|ₙEₓ = v^(moment·(t+n)) · ₜ₊ₙpₓ`; the `m`
field of the validated parameters is fixed to `1`. -/
def Exn (mt : MTConfig) (i : ℝ) (x n t moment : ℕ) (entry_age : Option ℕ)
    (validate : Bool) : Except Err ℝ := do
  if validate then singleLifeValidate mt i x n t 1 moment entry_age
  let mt ← get_new_config_with_selected_table mt entry_age
  let prob ← tpx mt (x : ℝ) ((t : ℝ) + (n : ℝ)) 0 none true
  pure ((1 / (1 + i)) ^ ((moment : ℝ) * ((t : ℝ) + (n : ℝ))) * prob)

/-- Rust `Ax1n` (benefits.rs:260): flat term insurance via `benefit_procedure`. -/
def Ax1n (mt : MTConfig) (i : ℝ) (x n t m moment : ℕ) (entry_age : Option ℕ)
    (validate : Bool) : Except Err ℝ :=
  benefit_procedure mt i x n t m moment entry_age validate .Flat

/-- Rust `Ax` (benefits.rs:367): whole-life insurance; `n = max_age - x - t` is
computed by unchecked `u32` subtraction before `benefit_procedure`
validates anything, so under checked (debug) arithmetic an underflow is a
panic. -/
def Ax (mt : MTConfig) (i : ℝ) (x t m moment : ℕ) (entry_age : Option ℕ)
    (validate : Bool) : Except Err ℝ := do
  let maxA ← maxAgeC mt
  if x + t > maxA then throw .panicked
  else benefit_procedure mt i x (maxA - x - t) t m moment entry_age validate .Flat

/-- Rust `IAx` (benefits.rs:603): increasing whole-life insurance, with the same
unchecked `n = max_age - x - t`. -/
def IAx (mt : MTConfig) (i : ℝ) (x t m moment : ℕ) (entry_age : Option ℕ)
    (validate : Bool) : Except Err ℝ := do
  let maxA ← maxAgeC mt
  if x + t > maxA then throw .panicked
  else
    benefit_procedure mt i x (maxA - x - t) t m moment entry_age validate
      CashFlowStructure.Increasing

/-- Rust `ax` (annuities.rs:74): whole-life annuity-immediate, with the same
unchecked `n = max_age - x - t`. -/
def ax (mt : MTConfig) (i : ℝ) (x t m moment : ℕ) (entry_age : Option ℕ)
    (validate : Bool) : Except Err ℝ := do
  let maxA ← maxAgeC mt
  if x + t > maxA then throw .panicked
  else
    annuity_procedure mt i x (maxA - x - t) t m moment entry_age validate
      CashFlowStructure.Flat CashFlowTiming.InArrears

/-- Rust `Iax` (annuities.rs:129): increasing whole-life annuity-immediate,
with the same unchecked `n = max_age - x - t`. -/
def Iax (mt : MTConfig) (i : ℝ) (x t m moment : ℕ) (entry_age : Option ℕ)
    (validate : Bool) : Except Err ℝ := do
  let maxA ← maxAgeC mt
  if x + t > maxA then throw .panicked
  else
    annuity_procedure mt i x (maxA - x - t) t m moment entry_age validate
      CashFlowStructure.Increasing CashFlowTiming.InArrears

/-- Rust `aax` (annuities.rs:333): whole-life annuity-due, with the same
unchecked `n = max_age - x - t`. -/
def aax (mt : MTConfig) (i : ℝ) (x t m moment : ℕ) (entry_age : Option ℕ)
    (validate : Bool) : Except Err ℝ := do
  let maxA ← maxAgeC mt
  if x + t > maxA then throw .panicked
  else
    annuity_procedure mt i x (maxA - x - t) t m moment entry_age validate
      CashFlowStructure.Flat CashFlowTiming.InAdvance

/-- An `Except` computation that returned a value. -/
def okE {α : Type} (e : Except Err α) : Prop := ∃ a, e = .ok a

/-- Concrete configuration exercising the silent-default path: a 1-D table
whose `qx` cell at age 1 is null (as produced by the untouched
both-columns pass-through arm of `get_qx_lx_data_config`, or at the
terminal age by the 2-D lx canonicalization). -/
def cfgNull : MTConfig :=
  { df := .oneD [⟨0, some (1/10), some 1⟩, ⟨1, none, some (9/10)⟩,
                 ⟨2, some 1, some (4/5)⟩],
    radix := 100000, pct := 1, assumption := .UDD }

/-- Concrete clean 1-D UDD configuration used by witnesses. -/
def cfgU : MTConfig :=
  { df := .oneD [⟨0, some (1/10), some 1⟩, ⟨1, some (1/5), some (9/10)⟩,
                 ⟨2, some 1, some (1/2)⟩],
    radix := 100000, pct := 1, assumption := .UDD }

/-- Rows of the concrete 2-D witness table. -/
def rows2D : List Row2 :=
  [⟨0, 0, some (1/100), some 1⟩, ⟨0, 1, some (2/100), some (9/10)⟩,
   ⟨1, 0, some (3/100), some (4/5)⟩, ⟨1, 1, some (4/100), some (7/10)⟩]

/-- Concrete 2-D (select & ultimate) configuration used by witnesses. -/
def cfg2D : MTConfig :=
  { df := .twoD rows2D, radix := 100000, pct := 1, assumption := .UDD }

/-! ## Theorems -/

/-- Rust `get_qx_from_lx_1D` always ends in the forced `qx = 1` row. -/
lemma get_qx_from_lx_1D_getLast? :
    ∀ (lxs : List ℝ), lxs ≠ [] → (get_qx_from_lx_1D lxs).getLast? = some 1
  | [], h => absurd rfl h
  | [_], _ => rfl
  | a :: b :: rest, _ => by
      have hrec := get_qx_from_lx_1D_getLast? (b :: rest) (by simp)
      rw [show get_qx_from_lx_1D (a :: b :: rest)
            = (a - b) / a :: get_qx_from_lx_1D (b :: rest) from rfl]
      cases hq : get_qx_from_lx_1D (b :: rest) with
      | nil => rw [hq] at hrec; simp at hrec
      | cons c l =>
          rw [hq] at hrec
          rw [List.getLast?_cons_cons, hrec]

/-- Claim **C1** (code bug): the canonicalizing constructor for a 1-D table
supplied with `qx` only does *not* apply the `pct` multiplier to `qx`, and
seeds the `lx` recursion with `radix` alone, not `radix · pct`: the result
is independent of `pct`, and at the concrete input
`radix = 100000`, `pct = 1/2`, `qx = [1/10, 1]` the derived column is
`lx = [100000, 90000]`, whose seed `100000` differs from
`radix · pct = 50000`. -/
theorem C1_pct_never_applied :
    (∀ (radix : ℕ) (pct : ℝ) (qxs : List ℝ),
        canonicalize_1D_qx radix pct qxs = canonicalize_1D_qx radix 1 qxs)
    ∧ canonicalize_1D_qx 100000 (1/2) [1/10, 1] = ([1/10, 1], [100000, 90000])
    ∧ (100000 : ℝ) ≠ 100000 * (1/2) := by
  refine ⟨fun _ _ _ => rfl, ?_, by norm_num⟩
  simp only [canonicalize_1D_qx, get_lx_from_qx_1D, List.dropLast, lx_walk,
    Prod.mk.injEq]
  norm_num

/-- Claim **C3** (counterexample): a 1-D table supplied with `qx` only keeps its
`qx` column unchanged through canonicalization, so with input
`qx = [1/10, 1/2]` the canonicalized table's maximum age carries
`qx = 1/2 ≠ 1`. -/
theorem C3_counterexample :
    (canonicalize_1D_qx 100000 1 [1/10, 1/2]).1.getLast? = some (1/2 : ℝ)
    ∧ (1/2 : ℝ) ≠ 1 := by
  constructor
  · rfl
  · norm_num

/-- Claim **C3** (amended): when the raw 1-D input supplies `lx`, the derived
`qx` column has `qx = 1` at the maximum age; a table supplied with `qx`
keeps its given terminal rate. -/
theorem C3_qx_one_at_max_age_from_lx (lxs : List ℝ) (h : lxs ≠ []) :
    (get_qx_from_lx_1D lxs).getLast? = some 1 :=
  get_qx_from_lx_1D_getLast? lxs h

/-- Witness for `C3_qx_one_at_max_age_from_lx` at `lx = [4, 2, 1]`. -/
theorem C3_qx_one_at_max_age_from_lx_witness :
    ([(4 : ℝ), 2, 1] ≠ []) ∧ (get_qx_from_lx_1D [(4 : ℝ), 2, 1]).getLast? = some 1 :=
  ⟨by simp, C3_qx_one_at_max_age_from_lx [4, 2, 1] (by simp)⟩

/-- Claim **C8** (counterexample): deriving `lx` from `qx = [1/10, 1/2]` with
`radix = 100000` and re-deriving `qx` yields `[1/10, 1]`: the terminal rate
is forced to `1`, so the round trip does not reproduce the original `qx`. -/
theorem C8_counterexample :
    get_qx_from_lx_1D (get_lx_from_qx_1D 100000 [1/10, 1/2]) = [1/10, 1]
    ∧ ([1/10, 1] : List ℝ) ≠ [1/10, 1/2] := by
  constructor
  · show get_qx_from_lx_1D (100000 :: lx_walk 100000 [1/10]) = [1/10, 1]
    show get_qx_from_lx_1D [(100000 : ℝ), 100000 * (1 - 1/10)] = [1/10, 1]
    show [(100000 - 100000 * (1 - 1/10)) / 100000, 1] = [(1/10 : ℝ), 1]
    norm_num
  · intro h
    have h2 : ([1] : List ℝ) = [1/2] := (List.cons.injEq .. ▸ h).2
    have h3 : (1 : ℝ) = 1/2 := (List.cons.injEq .. ▸ h2).1
    norm_num at h3

/-- qx → lx → qx round trip, all but the terminal row. -/
lemma qx_lx_qx_roundtrip :
    ∀ (r : ℝ) (qxs : List ℝ), qxs ≠ [] → r ≠ 0 → (∀ q ∈ qxs.dropLast, q ≠ 1) →
      get_qx_from_lx_1D (get_lx_from_qx_1D r qxs) = qxs.dropLast ++ [1]
  | _, [], h, _, _ => absurd rfl h
  | _, [_], _, _, _ => rfl
  | r, q :: q2 :: rest, _, hr, hq => by
      have hq1 : q ≠ 1 := hq q (by
        rw [show (q :: q2 :: rest).dropLast = q :: (q2 :: rest).dropLast from rfl]
        exact List.mem_cons_self _ _)
      have hr1 : r * (1 - q) ≠ 0 :=
        mul_ne_zero hr fun h0 => hq1 (sub_eq_zero.mp h0).symm
      have hq2 : ∀ p ∈ (q2 :: rest).dropLast, p ≠ 1 := fun p hp =>
        hq p (by
          rw [show (q :: q2 :: rest).dropLast = q :: (q2 :: rest).dropLast from rfl]
          exact List.mem_cons_of_mem _ hp)
      have ih := qx_lx_qx_roundtrip (r * (1 - q)) (q2 :: rest) (by simp) hr1 hq2
      have hstep : get_qx_from_lx_1D (get_lx_from_qx_1D r (q :: q2 :: rest))
          = (r - r * (1 - q)) / r
            :: get_qx_from_lx_1D (get_lx_from_qx_1D (r * (1 - q)) (q2 :: rest)) := rfl
      rw [hstep, ih]
      have hfrac : (r - r * (1 - q)) / r = q := by
        field_simp
        ring
      rw [hfrac]
      rfl

/-- lx → qx → lx round trip, exact when the radix matches the head. -/
lemma lx_qx_lx_roundtrip :
    ∀ (lxs : List ℝ) (h : lxs ≠ []), (∀ x ∈ lxs.dropLast, x ≠ 0) →
      get_lx_from_qx_1D (lxs.head h) (get_qx_from_lx_1D lxs) = lxs
  | [], h, _ => absurd rfl h
  | [_], _, _ => rfl
  | a :: b :: rest, _, hnz => by
      have ha : a ≠ 0 := hnz a (by
        rw [show (a :: b :: rest).dropLast = a :: (b :: rest).dropLast from rfl]
        exact List.mem_cons_self _ _)
      have hnz2 : ∀ x ∈ (b :: rest).dropLast, x ≠ 0 := fun x hx =>
        hnz x (by
          rw [show (a :: b :: rest).dropLast = a :: (b :: rest).dropLast from rfl]
          exact List.mem_cons_of_mem _ hx)
      have ih := lx_qx_lx_roundtrip (b :: rest) (by simp) hnz2
      obtain ⟨c, l, hQ⟩ : ∃ c l, get_qx_from_lx_1D (b :: rest) = c :: l := by
        cases rest with
        | nil => exact ⟨1, [], rfl⟩
        | cons x xs => exact ⟨(b - x) / b, get_qx_from_lx_1D (x :: xs), rfl⟩
      have hb : a * (1 - (a - b) / a) = b := by
        field_simp
      have hunf : get_lx_from_qx_1D a (get_qx_from_lx_1D (a :: b :: rest))
          = a :: a * (1 - (a - b) / a)
              :: lx_walk (a * (1 - (a - b) / a)) (get_qx_from_lx_1D (b :: rest)).dropLast := by
        rw [show get_qx_from_lx_1D (a :: b :: rest)
              = (a - b) / a :: get_qx_from_lx_1D (b :: rest) from rfl, hQ]
        rfl
      have htail : b :: lx_walk b (get_qx_from_lx_1D (b :: rest)).dropLast = b :: rest := by
        rw [show b :: lx_walk b (get_qx_from_lx_1D (b :: rest)).dropLast
              = get_lx_from_qx_1D b (get_qx_from_lx_1D (b :: rest)) from rfl]
        exact ih
      show get_lx_from_qx_1D a (get_qx_from_lx_1D (a :: b :: rest)) = a :: b :: rest
      rw [hunf, hb]
      rw [List.cons.injEq]
      exact ⟨rfl, htail⟩

/-- Claim **C8** (amended): for a 1-D table given as `qx`, deriving `lx` and
re-deriving `qx` reproduces the original `qx` at every age except the
last, which is forced to `1` (exactly, given a nonzero radix and
non-unit rates before the last age); symmetrically, deriving `qx` from a
given `lx` and re-deriving `lx` reproduces the original `lx` exactly when
the radix equals `lx(min_age)` and `lx` is nonzero before the last age. -/
theorem C8_roundtrip_amended :
    (∀ (r : ℝ) (qxs : List ℝ), qxs ≠ [] → r ≠ 0 → (∀ q ∈ qxs.dropLast, q ≠ 1) →
        get_qx_from_lx_1D (get_lx_from_qx_1D r qxs) = qxs.dropLast ++ [1])
    ∧ (∀ (lxs : List ℝ) (h : lxs ≠ []), (∀ x ∈ lxs.dropLast, x ≠ 0) →
        get_lx_from_qx_1D (lxs.head h) (get_qx_from_lx_1D lxs) = lxs) :=
  ⟨qx_lx_qx_roundtrip, lx_qx_lx_roundtrip⟩

/-- Witness for `C8_roundtrip_amended` at `qx = [1/2, 1/3, 1]`, `r = 2`
and `lx = [4, 2, 1]`. -/
theorem C8_roundtrip_amended_witness :
    (([(1 : ℝ)/2, 1/3, 1] ≠ []) ∧ (2 : ℝ) ≠ 0
      ∧ (∀ q ∈ ([(1 : ℝ)/2, 1/3, 1]).dropLast, q ≠ 1)
      ∧ get_qx_from_lx_1D (get_lx_from_qx_1D 2 [1/2, 1/3, 1])
          = ([(1 : ℝ)/2, 1/3, 1]).dropLast ++ [1])
    ∧ (([(4 : ℝ), 2, 1] ≠ []) ∧ (∀ x ∈ ([(4 : ℝ), 2, 1]).dropLast, x ≠ 0)
      ∧ get_lx_from_qx_1D (([(4 : ℝ), 2, 1]).head (by simp)) (get_qx_from_lx_1D [4, 2, 1])
          = [4, 2, 1]) := by
  have h1 : ∀ q ∈ ([(1 : ℝ)/2, 1/3, 1]).dropLast, q ≠ 1 := by
    intro q hq
    rw [show ([(1 : ℝ)/2, 1/3, 1]).dropLast = [1/2, 1/3] from rfl] at hq
    rcases List.mem_pair.mp hq with h | h <;> rw [h] <;> norm_num
  have h2 : ∀ x ∈ ([(4 : ℝ), 2, 1]).dropLast, x ≠ 0 := by
    intro x hx
    rw [show ([(4 : ℝ), 2, 1]).dropLast = [4, 2] from rfl] at hx
    rcases List.mem_pair.mp hx with h | h <;> rw [h] <;> norm_num
  exact ⟨⟨by simp, by norm_num, h1,
          C8_roundtrip_amended.1 2 [1/2, 1/3, 1] (by simp) (by norm_num) h1⟩,
         ⟨by simp, h2,
          C8_roundtrip_amended.2 [4, 2, 1] (by simp) h2⟩⟩

@[simp] lemma ebind_ok {α β : Type} (a : α) (f : α → Except Err β) :
    (Except.ok a : Except Err α) >>= f = f a := rfl

@[simp] lemma ebind_error {α β : Type} (e : Err) (f : α → Except Err β) :
    (Except.error e : Except Err α) >>= f = Except.error e := rfl

@[simp] lemma epure_def {α : Type} (a : α) : (pure a : Except Err α) = Except.ok a := rfl

@[simp] lemma etoOption_ok {α : Type} (a : α) :
    (Except.ok a : Except Err α).toOption = some a := rfl

@[simp] lemma etoOption_error {α : Type} (e : Err) :
    (Except.error e : Except Err α).toOption = none := rfl

@[simp] lemma ethrow_def {α : Type} (e : Err) :
    (throw e : Except Err α) = Except.error e := rfl


lemma tqx_cfgNull_err :
    tqx cfgNull 0 (1/2) 1 none false = .error (.msg ("No value found")) := by
  norm_num [tqx, tpx, tpx_whole, tpx_frac_t, get_value, getValueValidate,
    get_new_config_with_selected_table, cfgNull, minAgeC, maxAgeC, listMin, listMax,
    MortDF.ages, Row1.field, List.find?, Int.fract]
  simp

lemma tqx_cfgNull_zero :
    tqx cfgNull 0 (1/2) 0 none false = .ok (1/20) := by
  norm_num [tqx, tpx, tpx_whole, tpx_frac_t, get_value, getValueValidate,
    get_new_config_with_selected_table, cfgNull, minAgeC, maxAgeC, listMin, listMax,
    MortDF.ages, Row1.field, List.find?, Int.fract]
  try simp
  try norm_num

lemma tqx_cfgNull_half :
    tqx cfgNull 0 (1/2) (1/2) none false = .ok (1/20) := by
  norm_num [tqx, tpx, tpx_whole, tpx_frac_t, get_value, getValueValidate,
    get_new_config_with_selected_table, cfgNull, minAgeC, maxAgeC, listMin, listMax,
    MortDF.ages, Row1.field, List.find?, Int.fract]
  try simp
  try norm_num

lemma tqx_cfgNull_threehalf :
    tqx cfgNull 0 (1/2) (3/2) none false = .error (.msg ("No value found")) := by
  norm_num [tqx, tpx, tpx_whole, tpx_frac_t, get_value, getValueValidate,
    get_new_config_with_selected_table, cfgNull, minAgeC, maxAgeC, listMin, listMax,
    MortDF.ages, Row1.field, List.find?, Int.fract]
  simp

lemma tpx_cfgNull_def :
    tpx cfgNull 0 0 0 none false = .ok 1 := by
  norm_num [tpx, tpx_whole, get_value, getValueValidate,
    get_new_config_with_selected_table, cfgNull, minAgeC, maxAgeC, listMin, listMax,
    MortDF.ages, Row1.field, List.find?, Int.fract]
  try simp
  try norm_num

lemma range_four : List.range 4 = [0, 1, 2, 3] := rfl

/-- Claim **C2** (counterexample): on a table whose `qx` cell at age 1 is null,
the fully validated call `Ax1n(i=0, x=0, n=2, m=2)` (that is,
`benefit_procedure` with the Flat structure) succeeds with value `1/10`
even though its per-term probability sub-computation at `k = 2` fails with
a typed lookup error: the failed terms are silently replaced by `0.0`. -/
theorem C2_counterexample :
    Ax1n cfgNull 0 0 2 0 2 1 none true = .ok (1/10)
    ∧ tqx cfgNull 0 (1/2) 1 none false = .error (.msg ("No value found")) := by
  refine ⟨?_, tqx_cfgNull_err⟩
  have hval : singleLifeValidate cfgNull 0 0 2 0 2 1 none = .ok () := by
    norm_num [singleLifeValidate, cfgNull, listMin, listMax, MortDF.ages]
    try simp
    try norm_num
  have hproj : get_new_config_with_selected_table cfgNull none = .ok cfgNull := rfl
  norm_num [Ax1n, benefit_procedure, hval, hproj, range_four, tripleSum, orZero,
    benefit_amounts, tqx_cfgNull_zero, tqx_cfgNull_half, tqx_cfgNull_err,
    tqx_cfgNull_threehalf, tpx_cfgNull_def]
  try simp
  try norm_num

/-- Claim **C2** (amended): parameter-validation failures, projection failures
and a failure of the deferred survival factor fail the whole call, but a
failure of a per-term sub-computation never does: each term of the
`Nx`-style commutation summations and each per-term probability of the
benefit/annuity procedures replaces a failed sub-computation with the
default `0.0` via `unwrap_or(0.0)`, and the call returns `Ok`. -/
theorem C2_errors_defaulted_amended :
    (∀ (mt : MTConfig) (i : ℝ) (x : ℕ) (mt2 : MTConfig) (M : ℕ),
        get_new_config_with_selected_table mt none = .ok mt2 →
        maxAgeC mt2 = .ok M → okE (Nx mt i x none false))
    ∧ (∀ (mt : MTConfig) (i : ℝ) (x n t m moment : ℕ) (st : CashFlowStructure)
        (mt2 : MTConfig) (d : ℝ),
        get_new_config_with_selected_table mt none = .ok mt2 →
        tpx mt2 (x : ℝ) (t : ℝ) 0 none false = .ok d →
        okE (benefit_procedure mt i x n t m moment none false st)) := by
  constructor
  · intro mt i x mt2 M hproj hmax
    have h : Nx mt i x none false
        = .ok ((List.range' x (M + 1 - x)).foldl
            (fun acc k => acc + orZero (Dx mt2 i k none false)) 0) := by
      simp [Nx, hproj, hmax]
    exact ⟨_, h⟩
  · intro mt i x n t m moment st mt2 d hproj htpx
    have h : benefit_procedure mt i x n t m moment none false st
        = .ok (tripleSum
            ((List.range (n * m)).map fun k =>
              (1 / (1 + i)) ^ ((moment : ℝ) * (((k : ℝ) + 1) / (m : ℝ))))
            ((List.range (n * m)).map fun k =>
              orZero (tqx mt2 ((x : ℝ) + (t : ℝ)) (1 / (m : ℝ)) ((k : ℝ) / (m : ℝ))
                none false))
            (benefit_amounts st n m)
            * ((1 / (1 + i)) ^ ((t : ℕ) : ℝ) * d)) := by
      simp [benefit_procedure, hproj, htpx]
    exact ⟨_, h⟩

/-- Witness for `C2_errors_defaulted_amended` on `cfgNull`. -/
theorem C2_errors_defaulted_amended_witness :
    (get_new_config_with_selected_table cfgNull none = .ok cfgNull
      ∧ maxAgeC cfgNull = .ok 2 ∧ okE (Nx cfgNull 0 0 none false))
    ∧ (tpx cfgNull (((0 : ℕ) : ℝ)) (((0 : ℕ) : ℝ)) 0 none false = .ok 1
      ∧ okE (benefit_procedure cfgNull 0 0 2 0 2 1 none false .Flat)) := by
  have hproj : get_new_config_with_selected_table cfgNull none = .ok cfgNull := rfl
  have hmax : maxAgeC cfgNull = .ok 2 := by
    norm_num [maxAgeC, cfgNull, listMax, MortDF.ages]
  have htpx : tpx cfgNull (((0 : ℕ) : ℝ)) (((0 : ℕ) : ℝ)) 0 none false = .ok 1 := by
    simp only [Nat.cast_zero]
    exact tpx_cfgNull_def
  exact ⟨⟨hproj, hmax,
          C2_errors_defaulted_amended.1 cfgNull 0 0 cfgNull 2 hproj hmax⟩,
         ⟨htpx,
          C2_errors_defaulted_amended.2 cfgNull 0 0 2 0 2 1 .Flat cfgNull 1 hproj htpx⟩⟩

lemma range_two : List.range 2 = [0, 1] := rfl

/-- Claim **C4** (counterexample): in the benefit procedure with `n = 1`,
`m = 2`, the `k = 0` per-term amount under the Increasing structure is
`1`, not the claimed `(⌊0/2⌋ + 1) · (1/2) = 1/2`: the benefit amounts are
not scaled by `1/m`. -/
theorem C4_counterexample :
    (benefit_amounts .Increasing 1 2)[0]? = some 1
    ∧ (1 : ℝ) ≠ ((⌊(0 : ℝ) / (2 : ℝ)⌋ : ℝ) + 1) * (1 / 2) := by
  constructor
  · norm_num [benefit_amounts, range_two]
  · norm_num

/-- Claim **C4** (amended): for every payment frequency `m`, term `n` and index
`k < n·m`, the annuity procedure's per-term amount under the Increasing
structure is `(⌊k/m⌋ + 1)` scaled by `1/m` and under the Decreasing
structure `(n − ⌊k/m⌋)` scaled by `1/m`, exactly as the claim states; the
insurance-benefit procedure uses the same two quantities *without* the
`1/m` scaling. -/
theorem C4_amounts_amended (n m k : ℕ) (hk : k < n * m) :
    (annuity_amounts .Increasing n m)[k]?
        = some (((⌊(k : ℝ) / (m : ℝ)⌋ : ℝ) + 1) * (1 / (m : ℝ)))
    ∧ (annuity_amounts .Decreasing n m)[k]?
        = some (((n : ℝ) - (⌊(k : ℝ) / (m : ℝ)⌋ : ℝ)) * (1 / (m : ℝ)))
    ∧ (benefit_amounts .Increasing n m)[k]?
        = some ((⌊(k : ℝ) / (m : ℝ)⌋ : ℝ) + 1)
    ∧ (benefit_amounts .Decreasing n m)[k]?
        = some ((n : ℝ) - (⌊(k : ℝ) / (m : ℝ)⌋ : ℝ)) := by
  have key : ∀ (f : ℕ → ℝ), ((List.range (n * m)).map f)[k]? = some (f k) := by
    intro f
    simp [List.getElem?_map, List.getElem?_range, hk]
  have keyd : ∀ (f : ℕ → ℝ),
      (((List.range (n * m)).map f).map (fun a => a / (m : ℝ)))[k]?
        = some (f k / (m : ℝ)) := by
    intro f
    simp [List.getElem?_map, List.getElem?_range, hk]
  refine ⟨?_, ?_, ?_, ?_⟩
  · rw [show annuity_amounts .Increasing n m
          = ((List.range (n * m)).map fun j : ℕ => (⌊(j : ℝ) / (m : ℝ)⌋ : ℝ) + 1).map
              (fun a => a / (m : ℝ)) from rfl,
        keyd (fun j : ℕ => (⌊(j : ℝ) / (m : ℝ)⌋ : ℝ) + 1), mul_one_div]
  · rw [show annuity_amounts .Decreasing n m
          = ((List.range (n * m)).map fun j : ℕ =>
              (n : ℝ) - (⌊(j : ℝ) / (m : ℝ)⌋ : ℝ)).map (fun a => a / (m : ℝ)) from rfl,
        keyd (fun j : ℕ => (n : ℝ) - (⌊(j : ℝ) / (m : ℝ)⌋ : ℝ)), mul_one_div]
  · rw [show benefit_amounts .Increasing n m
          = (List.range (n * m)).map
              (fun j : ℕ => (⌊(j : ℝ) / (m : ℝ)⌋ : ℝ) + 1) from rfl,
        key (fun j : ℕ => (⌊(j : ℝ) / (m : ℝ)⌋ : ℝ) + 1)]
  · rw [show benefit_amounts .Decreasing n m
          = (List.range (n * m)).map
              (fun j : ℕ => (n : ℝ) - (⌊(j : ℝ) / (m : ℝ)⌋ : ℝ)) from rfl,
        key (fun j : ℕ => (n : ℝ) - (⌊(j : ℝ) / (m : ℝ)⌋ : ℝ))]

/-- Witness for `C4_amounts_amended` at `n = 2`, `m = 2`, `k = 3`. -/
theorem C4_amounts_amended_witness :
    3 < 2 * 2
    ∧ ((annuity_amounts .Increasing 2 2)[3]?
        = some (((⌊(3 : ℝ) / (2 : ℝ)⌋ : ℝ) + 1) * (1 / (2 : ℝ)))
      ∧ (annuity_amounts .Decreasing 2 2)[3]?
        = some ((((2 : ℕ) : ℝ) - (⌊(3 : ℝ) / (2 : ℝ)⌋ : ℝ)) * (1 / (2 : ℝ)))
      ∧ (benefit_amounts .Increasing 2 2)[3]?
        = some ((⌊(3 : ℝ) / (2 : ℝ)⌋ : ℝ) + 1)
      ∧ (benefit_amounts .Decreasing 2 2)[3]?
        = some ((((2 : ℕ) : ℝ) - (⌊(3 : ℝ) / (2 : ℝ)⌋ : ℝ)))) := by
  have h := C4_amounts_amended 2 2 3 (by norm_num)
  refine ⟨by norm_num, ?_, ?_, ?_, ?_⟩ <;> push_cast at h ⊢ <;> norm_num at h ⊢ <;>
    tauto

/-- Claim **C10**: whenever `x + t` exceeds the table's maximum age, the
whole-life functions `Ax`, `IAx`, `ax`, `Iax` and `aax` reach the
unchecked unsigned subtraction `n = max_age - x - t` before any parameter
validation runs, and the subtraction faults (checked-arithmetic
semantics), so none of them returns the typed range error that validated
calls produce. -/
theorem C10_unchecked_subtraction (mt : MTConfig) (i : ℝ) (x t m moment : ℕ)
    (ea : Option ℕ) (validate : Bool) (M : ℕ)
    (hmax : maxAgeC mt = .ok M) (hgt : x + t > M) :
    Ax mt i x t m moment ea validate = .error .panicked
    ∧ IAx mt i x t m moment ea validate = .error .panicked
    ∧ ax mt i x t m moment ea validate = .error .panicked
    ∧ Iax mt i x t m moment ea validate = .error .panicked
    ∧ aax mt i x t m moment ea validate = .error .panicked := by
  refine ⟨?_, ?_, ?_, ?_, ?_⟩ <;> simp [Ax, IAx, ax, Iax, aax, hmax, hgt]

/-- Witness for `C10_unchecked_subtraction` on `cfgU` at `x = 5`. -/
theorem C10_unchecked_subtraction_witness :
    maxAgeC cfgU = .ok 2 ∧ 5 + 0 > 2
    ∧ (Ax cfgU 0 5 0 1 1 none true = .error .panicked
      ∧ IAx cfgU 0 5 0 1 1 none true = .error .panicked
      ∧ ax cfgU 0 5 0 1 1 none true = .error .panicked
      ∧ Iax cfgU 0 5 0 1 1 none true = .error .panicked
      ∧ aax cfgU 0 5 0 1 1 none true = .error .panicked) := by
  have hmax : maxAgeC cfgU = .ok 2 := by
    norm_num [maxAgeC, cfgU, listMax, MortDF.ages]
  exact ⟨hmax, by norm_num,
    C10_unchecked_subtraction cfgU 0 5 0 1 1 none true 2 hmax (by norm_num)⟩

/-- Claim **C9**: for a valid age `x` on a 1-D table with `lx(x) ≠ 0`, the pure
endowment `Exn` with `n = 0` and `t = 0` returns exactly `1`, and the term
insurance `Ax1n` with `n = 0` returns exactly `0` (the summation over an
empty index set). -/
theorem C9_boundary_n_zero (mt : MTConfig) (i : ℝ) (x : ℕ) (L : ℝ)
    (hval : singleLifeValidate mt i x 0 0 1 1 none = .ok ())
    (hproj : get_new_config_with_selected_table mt none = .ok mt)
    (hsv : survivalValidate mt (x : ℝ) 0 0 none = .ok ())
    (hlx : get_value mt .lx x none true = .ok L) (hL : L ≠ 0) :
    Exn mt i x 0 0 1 none true = .ok 1
    ∧ Ax1n mt i x 0 0 1 1 none true = .ok 0 := by
  have hwhole : tpx_whole mt x 0 = .ok 1 := by
    simp [tpx_whole, hlx, div_self hL]
  have htpxT : tpx mt (x : ℝ) 0 0 none true = .ok 1 := by
    simp [tpx, hsv, hproj, Int.fract_natCast, Int.fract_zero, Int.floor_natCast,
      Int.floor_zero, hwhole]
  have htpxF : tpx mt (x : ℝ) 0 0 none false = .ok 1 := by
    simp [tpx, hproj, Int.fract_natCast, Int.fract_zero, Int.floor_natCast,
      Int.floor_zero, hwhole]
  constructor
  · simp [Exn, hval, hproj, htpxT]
  · simp [Ax1n, benefit_procedure, hval, hproj, htpxF, tripleSum, benefit_amounts]

/-- Witness for `C9_boundary_n_zero` on `cfgU` at `x = 0`, `i = 0`. -/
theorem C9_boundary_n_zero_witness :
    singleLifeValidate cfgU 0 0 0 0 1 1 none = .ok ()
    ∧ get_new_config_with_selected_table cfgU none = .ok cfgU
    ∧ survivalValidate cfgU ((0 : ℕ) : ℝ) 0 0 none = .ok ()
    ∧ get_value cfgU .lx 0 none true = .ok 1
    ∧ (1 : ℝ) ≠ 0
    ∧ (Exn cfgU 0 0 0 0 1 none true = .ok 1
      ∧ Ax1n cfgU 0 0 0 0 1 1 none true = .ok 0) := by
  have hval : singleLifeValidate cfgU 0 0 0 0 1 1 none = .ok () := by
    norm_num [singleLifeValidate, cfgU, listMin, listMax, MortDF.ages]
    try simp
    try norm_num
  have hproj : get_new_config_with_selected_table cfgU none = .ok cfgU := rfl
  have hsv : survivalValidate cfgU ((0 : ℕ) : ℝ) 0 0 none = .ok () := by
    norm_num [survivalValidate, cfgU, listMin, listMax, MortDF.ages]
    try simp
    try norm_num
  have hlx : get_value cfgU .lx 0 none true = .ok 1 := by
    norm_num [get_value, getValueValidate, get_new_config_with_selected_table, cfgU,
      minAgeC, maxAgeC, listMin, listMax, MortDF.ages, Row1.field, List.find?]
    try simp
    try norm_num
  exact ⟨hval, hproj, hsv, hlx, by norm_num,
    C9_boundary_n_zero cfgU 0 0 1 hval hproj hsv hlx (by norm_num)⟩

/-- Claim **C5**: for every fractional survival query evaluated entirely within
one year of age (`x = n + s`, `s ∈ (0,1)`, duration `t ≤ 1 − s`, base
rate `q = qx(n)`), `tpx` equals `1 − t·q/(1 − s·q)` under UDD,
`(1 − q)^t` under CFM (offset-independent), and `1 − t·q/(1 + s·q)` under
HPB. -/
theorem C5_single_year_fractional (mt : MTConfig) (n : ℕ) (s t q : ℝ)
    (hs0 : 0 < s) (hs1 : s < 1) (ht : t ≤ 1 - s)
    (hproj : get_new_config_with_selected_table mt none = .ok mt)
    (hq : get_value mt .qx n none true = .ok q) :
    tpx mt ((n : ℝ) + s) t 0 none false
      = .ok (match mt.assumption with
          | .UDD => 1 - t * q / (1 - s * q)
          | .CFM => (1 - q) ^ t
          | .HPB => 1 - t * q / (1 + s * q)) := by
  have hs : Int.fract s = s := Int.fract_eq_self.mpr ⟨hs0.le, hs1⟩
  have hfx : Int.fract ((n : ℝ) + s) = s := by rw [Int.fract_nat_add, hs]
  have hfl : ⌊(n : ℝ) + s⌋ = (n : ℤ) := by
    rw [Int.floor_nat_add, Int.floor_eq_zero_iff.mpr ⟨hs0.le, hs1⟩, add_zero]
  simp [tpx, hproj, hfx, hfl, hs0.ne', ht, tpx_frac_t, hq]

/-- Witness for `C5_single_year_fractional` on `cfgU` with `x = 0 + 1/2`
and `t = 1/4`. -/
theorem C5_single_year_fractional_witness :
    (0 : ℝ) < 1/2 ∧ (1/2 : ℝ) < 1 ∧ (1/4 : ℝ) ≤ 1 - 1/2
    ∧ get_new_config_with_selected_table cfgU none = .ok cfgU
    ∧ get_value cfgU .qx 0 none true = .ok (1/10)
    ∧ tpx cfgU (((0 : ℕ) : ℝ) + 1/2) (1/4) 0 none false
      = .ok (match cfgU.assumption with
          | .UDD => 1 - 1/4 * (1/10) / (1 - 1/2 * (1/10))
          | .CFM => (1 - 1/10) ^ (1/4 : ℝ)
          | .HPB => 1 - 1/4 * (1/10) / (1 + 1/2 * (1/10))) := by
  have hproj : get_new_config_with_selected_table cfgU none = .ok cfgU := rfl
  have hq : get_value cfgU .qx 0 none true = .ok (1/10) := by
    norm_num [get_value, getValueValidate, get_new_config_with_selected_table, cfgU,
      minAgeC, maxAgeC, listMin, listMax, MortDF.ages, Row1.field, List.find?]
    try simp
    try norm_num
  exact ⟨by norm_num, by norm_num, by norm_num, hproj, hq,
    C5_single_year_fractional cfgU 0 (1/2) (1/4) (1/10) (by norm_num) (by norm_num)
      (by norm_num) hproj hq⟩

/-- Claim **C6**: for every fractional query with `x = n + s` (`s ∈ (0,1)`) and
`t > 1 − s`, `tpx` is the product of exactly three segments: the direct
assumption formula from `n + s` over `1 − s`, the integer `lx`-ratio
survival over the remaining whole years from age `n + 1`, and the direct
assumption formula over the final fractional remainder at the integer age
boundary (the last factor being `1` when the remainder is zero). -/
theorem C6_multi_segment (mt : MTConfig) (n : ℕ) (s t a b c : ℝ)
    (hs0 : 0 < s) (hs1 : s < 1) (ht : 1 - s < t)
    (hproj : get_new_config_with_selected_table mt none = .ok mt)
    (ha : tpx_frac_t mt ((n : ℝ) + s) (1 - s) = .ok a)
    (hb : tpx_whole mt (n + 1) (⌊t - (1 - s)⌋).toNat = .ok b)
    (hc : (Int.fract (t - (1 - s)) = 0 ∧ c = 1)
        ∨ (Int.fract (t - (1 - s)) ≠ 0
            ∧ tpx_frac_t mt ((n : ℝ) + 1 + ((⌊t - (1 - s)⌋).toNat : ℝ))
                (Int.fract (t - (1 - s))) = .ok c)) :
    tpx mt ((n : ℝ) + s) t 0 none false = .ok (a * (b * c)) := by
  have hs : Int.fract s = s := Int.fract_eq_self.mpr ⟨hs0.le, hs1⟩
  have hfx : Int.fract ((n : ℝ) + s) = s := by rw [Int.fract_nat_add, hs]
  have hfl : ⌊(n : ℝ) + s⌋ = (n : ℤ) := by
    rw [Int.floor_nat_add, Int.floor_eq_zero_iff.mpr ⟨hs0.le, hs1⟩, add_zero]
  have hnotle : ¬(t ≤ 1 - s) := not_le.mpr ht
  rcases hc with ⟨hf0, hc1⟩ | ⟨hfne, hc2⟩
  · simp [tpx, hproj, hfx, hfl, hs0.ne', hnotle, ha, hb, hf0, hc1]
  · simp [tpx, hproj, hfx, hfl, hs0.ne', hnotle, ha, hb, hfne, hc2]

/-- Witness for `C6_multi_segment` on `cfgU` with `x = 0 + 1/2`, `t = 2`:
the three segments are `18/19`, `5/9` and `1/2`. -/
theorem C6_multi_segment_witness :
    (0 : ℝ) < 1/2 ∧ (1/2 : ℝ) < 1 ∧ (1 : ℝ) - 1/2 < 2
    ∧ get_new_config_with_selected_table cfgU none = .ok cfgU
    ∧ tpx_frac_t cfgU (((0 : ℕ) : ℝ) + 1/2) (1 - 1/2) = .ok (18/19)
    ∧ tpx_whole cfgU (0 + 1) (⌊(2 : ℝ) - (1 - 1/2)⌋).toNat = .ok (5/9)
    ∧ Int.fract ((2 : ℝ) - (1 - 1/2)) ≠ 0
    ∧ tpx_frac_t cfgU (((0 : ℕ) : ℝ) + 1 + (((⌊(2 : ℝ) - (1 - 1/2)⌋).toNat : ℕ) : ℝ))
        (Int.fract ((2 : ℝ) - (1 - 1/2))) = .ok (1/2)
    ∧ tpx cfgU (((0 : ℕ) : ℝ) + 1/2) 2 0 none false
        = .ok (18/19 * (5/9 * (1/2))) := by
  have hproj : get_new_config_with_selected_table cfgU none = .ok cfgU := rfl
  have ha : tpx_frac_t cfgU (((0 : ℕ) : ℝ) + 1/2) (1 - 1/2) = .ok (18/19) := by
    norm_num [tpx_frac_t, get_value, getValueValidate,
      get_new_config_with_selected_table, cfgU, minAgeC, maxAgeC, listMin, listMax,
      MortDF.ages, Row1.field, List.find?, Int.fract]
    try simp
    try norm_num
  have hb : tpx_whole cfgU (0 + 1) (⌊(2 : ℝ) - (1 - 1/2)⌋).toNat = .ok (5/9) := by
    norm_num [tpx_whole, get_value, getValueValidate,
      get_new_config_with_selected_table, cfgU, minAgeC, maxAgeC, listMin, listMax,
      MortDF.ages, Row1.field, List.find?]
    try simp
    try norm_num
  have hfne : Int.fract ((2 : ℝ) - (1 - 1/2)) ≠ 0 := by
    norm_num [Int.fract]
  have hc2 : tpx_frac_t cfgU
      (((0 : ℕ) : ℝ) + 1 + (((⌊(2 : ℝ) - (1 - 1/2)⌋).toNat : ℕ) : ℝ))
      (Int.fract ((2 : ℝ) - (1 - 1/2))) = .ok (1/2) := by
    norm_num [tpx_frac_t, get_value, getValueValidate,
      get_new_config_with_selected_table, cfgU, minAgeC, maxAgeC, listMin, listMax,
      MortDF.ages, Row1.field, List.find?, Int.fract]
    try simp
    try norm_num
  exact ⟨by norm_num, by norm_num, by norm_num, hproj, ha, hb, hfne, hc2,
    C6_multi_segment cfgU 0 (1/2) 2 (18/19) (5/9) (1/2) (by norm_num) (by norm_num)
      (by norm_num) hproj ha hb (Or.inr ⟨hfne, hc2⟩)⟩

lemma selRowsLoop_ok (rows : List Row2) (maxD e : ℕ) :
    ∀ (l : List ℕ),
      (∀ a ∈ l, e ≤ a →
        ((cellLookup rows a (min (a - e) maxD)).bind Row2.qx).isSome
        ∧ ((cellLookup rows a (min (a - e) maxD)).bind Row2.lx).isSome) →
      selRowsLoop rows maxD e l
        = .ok (l.map fun a =>
            if a < e then ⟨a, some 0, some 0⟩
            else ⟨a, (cellLookup rows a (min (a - e) maxD)).bind Row2.qx,
                     (cellLookup rows a (min (a - e) maxD)).bind Row2.lx⟩)
  | [], _ => rfl
  | a :: as, h => by
      have ih := selRowsLoop_ok rows maxD e as fun x hx hex =>
        h x (List.mem_cons_of_mem _ hx) hex
      by_cases hae : a < e
      · simp [selRowsLoop, selRow, hae, ih]
      · obtain ⟨hq, hl⟩ := h a (List.mem_cons_self _ _) (not_lt.mp hae)
        obtain ⟨qv, hqv⟩ := Option.isSome_iff_exists.mp hq
        obtain ⟨lv, hlv⟩ := Option.isSome_iff_exists.mp hl
        simp [selRowsLoop, selRow, hae, hqv, hlv, ih]

/-- Claim **C7**: a table with no duration axis is returned unchanged by the
projection; for a 2-D table and an entry age `e`, the projection builds a
1-D table over every age in `[min_age, max_age]` in which every age below
`e` has `qx = lx = 0` and every age `≥ e` carries the `qx` and `lx` of the
cell at `duration = min(age − e, max_duration)`. -/
theorem C7_selected_projection :
    (∀ (mt : MTConfig) (rows : List Row1) (ea : Option ℕ),
        mt.df = .oneD rows → get_new_config_with_selected_table mt ea = .ok mt)
    ∧ (∀ (mt : MTConfig) (rows : List Row2) (e mn mx md : ℕ),
        mt.df = .twoD rows →
        minAgeC mt = .ok mn → maxAgeC mt = .ok mx → maxDurC mt = .ok md →
        (∀ a ∈ List.range' mn (mx + 1 - mn), e ≤ a →
          ((cellLookup rows a (min (a - e) md)).bind Row2.qx).isSome
          ∧ ((cellLookup rows a (min (a - e) md)).bind Row2.lx).isSome) →
        get_selected_mortality_table mt e
          = .ok ((List.range' mn (mx + 1 - mn)).map fun a =>
              if a < e then ⟨a, some 0, some 0⟩
              else ⟨a, (cellLookup rows a (min (a - e) md)).bind Row2.qx,
                       (cellLookup rows a (min (a - e) md)).bind Row2.lx⟩)) := by
  constructor
  · intro mt rows ea hdf
    simp [get_new_config_with_selected_table, hdf]
  · intro mt rows e mn mx md hdf hmn hmx hmd hcells
    simp [get_selected_mortality_table, hmn, hmx, hmd, hdf,
      selRowsLoop_ok rows md e _ hcells]

/-- Witness for `C7_selected_projection`: the 1-D `cfgU` is unchanged, and
the 2-D `cfg2D` with entry age 1 projects to zeros below age 1 and the
duration-0 cell at age 1. -/
theorem C7_selected_projection_witness :
    (cfgU.df = .oneD [⟨0, some (1/10), some 1⟩, ⟨1, some (1/5), some (9/10)⟩,
        ⟨2, some 1, some (1/2)⟩]
      ∧ get_new_config_with_selected_table cfgU (some 1) = .ok cfgU)
    ∧ (cfg2D.df = .twoD rows2D
      ∧ minAgeC cfg2D = .ok 0 ∧ maxAgeC cfg2D = .ok 1 ∧ maxDurC cfg2D = .ok 1
      ∧ (∀ a ∈ List.range' 0 (1 + 1 - 0), 1 ≤ a →
          ((cellLookup rows2D a (min (a - 1) 1)).bind Row2.qx).isSome
          ∧ ((cellLookup rows2D a (min (a - 1) 1)).bind Row2.lx).isSome)
      ∧ get_selected_mortality_table cfg2D 1
          = .ok ((List.range' 0 (1 + 1 - 0)).map fun a =>
              if a < 1 then ⟨a, some 0, some 0⟩
              else ⟨a, (cellLookup rows2D a (min (a - 1) 1)).bind Row2.qx,
                       (cellLookup rows2D a (min (a - 1) 1)).bind Row2.lx⟩)) := by
  have hdf1 : cfgU.df = .oneD [⟨0, some (1/10), some 1⟩, ⟨1, some (1/5), some (9/10)⟩,
      ⟨2, some 1, some (1/2)⟩] := rfl
  have hdf2 : cfg2D.df = .twoD rows2D := rfl
  have hmn : minAgeC cfg2D = .ok 0 := by
    norm_num [minAgeC, cfg2D, rows2D, listMin, MortDF.ages]
  have hmx : maxAgeC cfg2D = .ok 1 := by
    norm_num [maxAgeC, cfg2D, rows2D, listMax, MortDF.ages]
  have hmd : maxDurC cfg2D = .ok 1 := by
    norm_num [maxDurC, cfg2D, rows2D, listMax]
  have hcells : ∀ a ∈ List.range' 0 (1 + 1 - 0), 1 ≤ a →
      ((cellLookup rows2D a (min (a - 1) 1)).bind Row2.qx).isSome
      ∧ ((cellLookup rows2D a (min (a - 1) 1)).bind Row2.lx).isSome := by
    intro a ha hea
    simp [List.range'] at ha
    rcases ha with rfl | rfl
    · exact absurd hea (by omega)
    · refine ⟨?_, ?_⟩ <;> simp [cellLookup, rows2D, List.find?]
  exact ⟨⟨hdf1, C7_selected_projection.1 cfgU _ (some 1) hdf1⟩,
         ⟨hdf2, hmn, hmx, hmd, hcells,
          C7_selected_projection.2 cfg2D rows2D 1 0 1 1 hdf2 hmn hmx hmd hcells⟩⟩

end RsLife
